import Mathlib

set_option maxRecDepth 8192

/-!
Shallow embedding of the DriveSight dashboard client (frontend real-time
synchronization core): the WebSocket connection manager and event
multiplexer (src/unnamed/part_000, module `DriveSightSocket`), the alert
panel reconciliation (src/frontend/js/alerts.js, module `DriveSightAlerts`),
the heat-map layer update (src/frontend/js/heatmap.js, module
`DriveSightMap`), and the application controller's dashboard wiring
(src/unnamed/part_001).

Modelling conventions:
- JavaScript numbers are modelled as `Rat` (for geographic coordinates and
  heat intensities) or `Nat` (for counters and timestamps); none of the
  verified properties depends on floating-point rounding, only on value
  identity and on JS truthiness of `0`.
- A possibly-absent object field (`undefined`/`null`) is an `Option`.
- An async fetch that may fail is modelled by passing the response as
  `Option r`: `none` is the `catch` path (network or JSON-decode error),
  `some r` the resolved response body.
- Module-level mutable state is passed explicitly and returned updated.
-/

namespace DriveSight

/-- Alert record as consumed by the alert panel renderer in
src/frontend/js/alerts.js (`alert_type`, `latitude`, `longitude`, `title`,
`message`, `notified_chp`, `created_at`). -/
structure Alert where
  alert_type : String
  latitude : Rat
  longitude : Rat
  title : String
  message : String
  notified_chp : Bool
  created_at : Nat
deriving DecidableEq

/-- Heat-map input point as delivered by the server (`/api/heatmap` or the
`heatmap_update` push): `lat`, `lng`, and a possibly-missing `intensity`
field. -/
structure HeatPoint where
  lat : Rat
  lng : Rat
  intensity : Option Rat
deriving DecidableEq

/-- One `[lat, lng, weight]` triple as handed to `heatLayer.setLatLngs` in
src/frontend/js/heatmap.js. -/
structure HeatTriple where
  lat : Rat
  lng : Rat
  weight : Rat
deriving DecidableEq

/-- Payload of a `stats_update` push or `/api/stats` pull, restricted to the
fields `updateStatDisplays` (src/unnamed/part_001) reads; a missing field is
`none` (JS `undefined`). -/
structure StatsPayload where
  active_alerts : Option Nat
  cameras_active : Option Nat
  incidents_today : Option Nat
deriving DecidableEq

/-- Payload of a `new_incident` push as read by the alert-panel handler in
src/frontend/js/alerts.js: only the optional `alert` field matters there
(the separate `incident` field feeds the map marker layer, which is outside
the reconciled view state). -/
structure NewIncidentPayload where
  alert : Option Alert
deriving DecidableEq

/-- Tagged union of the event payloads flowing through the multiplexer. -/
inductive Payload where
  | connectionChange (connected : Bool)
  | newIncident (p : NewIncidentPayload)
  | heatmapUpdate (heatmap : Option (List HeatPoint))
  | statsUpdate (d : StatsPayload)
  | emptyPayload
deriving DecidableEq

end DriveSight

namespace DriveSightAlerts

open DriveSight

/-- Rendering side effect of the alert panel: `_render` redraws the list
from the stored `alerts` array; `_renderError` shows the transient
"Failed to load alerts. Retrying..." indicator (src/frontend/js/alerts.js). -/
inductive RenderAction where
  | render
  | renderError
deriving DecidableEq

/-- Embedding of `fetchAlerts` (src/frontend/js/alerts.js lines 26-36).
`resp = none` is the `catch` branch: a network or decode error is logged
and `_renderError()` runs — the stored `alerts` array is not touched and
nothing is rethrown (the function is total). `resp = some d` is the `try`
branch: `alerts = d || []` (inner `none` models a response body without an
`alerts` field) followed by `_render()`. The stored list is the first
component of the result. -/
def fetchAlerts (resp : Option (Option (List Alert))) (alerts : List Alert) :
    List Alert × RenderAction :=
  match resp with
  | none => (alerts, RenderAction.renderError)
  | some d => (d.getD [], RenderAction.render)

/-- Embedding of `_prependAlert` (src/frontend/js/alerts.js lines 38-51):
`alerts.unshift(alert)` then `if (alerts.length > 30) alerts =
alerts.slice(0, 30)`. The cosmetic flash animation has no effect on the
list. -/
def _prependAlert (alert : Alert) (alerts : List Alert) : List Alert :=
  let alerts2 := alert :: alerts
  if alerts2.length > 30 then alerts2.take 30 else alerts2

/-- Embedding of the `new_incident` listener registered by
`DriveSightAlerts.init`: `if (data.alert) { _prependAlert(data.alert) }`. -/
def alertsOnNewIncident (data : NewIncidentPayload) (alerts : List Alert) :
    List Alert :=
  match data.alert with
  | some a => _prependAlert a alerts
  | none => alerts

/-- The alert view after a sequence of push alerts has been applied in
arrival order, starting from view `v`. -/
def applyPushes (v : List Alert) (ps : List Alert) : List Alert :=
  ps.foldl (fun acc a => _prependAlert a acc) v

/-- Concrete alert used in scenarios; alerts are distinguished by their
`created_at` stamp. -/
def mkA (i : Nat) : Alert :=
  { alert_type := "critical", latitude := 0, longitude := 0, title := "",
    message := "", notified_chp := false, created_at := i }

end DriveSightAlerts

namespace DriveSightSocket

open DriveSight

/-- Registered listener callback. JS function identity (reference equality)
is modelled by the `id` field; `throws` says whether invoking the callback
on a given payload raises an exception. -/
structure Handler where
  id : Nat
  throws : Payload → Bool

/-- The `listeners` registry of src/unnamed/part_000 lines 7-13: one array
per known event kind. Only these five keys exist on the object; indexing
with any other string yields `undefined`. -/
structure Listeners where
  new_incident : List Handler
  alert_update : List Handler
  heatmap_update : List Handler
  stats_update : List Handler
  connection_change : List Handler

/-- The JS property access `listeners[event]`: `some` the stored array for
the five known kinds, `none` (`undefined`, falsy) otherwise. An empty
array is truthy in JS, so the guards `if (listeners[event])` test exactly
membership of `event` among the five keys. -/
def lookup (ls : Listeners) (event : String) : Option (List Handler) :=
  if event = "new_incident" then some ls.new_incident
  else if event = "alert_update" then some ls.alert_update
  else if event = "heatmap_update" then some ls.heatmap_update
  else if event = "stats_update" then some ls.stats_update
  else if event = "connection_change" then some ls.connection_change
  else none

/-- Embedding of `on` (src/unnamed/part_000 lines 63-67; `on` is a reserved
word in Lean, hence the name `onEvent`):
`if (listeners[event]) { listeners[event].push(callback) }` — append the
callback for a known kind, silently do nothing otherwise. -/
def onEvent (ls : Listeners) (event : String) (callback : Handler) : Listeners :=
  if event = "new_incident" then
    { ls with new_incident := ls.new_incident ++ [callback] }
  else if event = "alert_update" then
    { ls with alert_update := ls.alert_update ++ [callback] }
  else if event = "heatmap_update" then
    { ls with heatmap_update := ls.heatmap_update ++ [callback] }
  else if event = "stats_update" then
    { ls with stats_update := ls.stats_update ++ [callback] }
  else if event = "connection_change" then
    { ls with connection_change := ls.connection_change ++ [callback] }
  else ls

/-- Record of one callback invocation during a dispatch: which handler ran
and whether its exception was caught (and logged) by the per-handler
`try`/`catch`. -/
structure Invocation where
  handler : Nat
  errored : Bool
deriving DecidableEq

/-- The `forEach` loop body of `_notify`:
`try { cb(data) } catch (e) { console.error(...) }`. The `catch` confines a
throw to the current iteration, so the recursion proceeds to the remaining
callbacks whether or not `cb` threw; the outcome of each invocation is
recorded. -/
def runHandlers (data : Payload) : List Handler → List Invocation
  | [] => []
  | cb :: rest => { handler := cb.id, errored := cb.throws data } :: runHandlers data rest

/-- Embedding of `_notify` (src/unnamed/part_000 lines 81-87):
`if (listeners[event]) { listeners[event].forEach(...) }`. It reads the
registry but never mutates it; the returned registry is the (unchanged)
state seen by subsequent dispatches, paired with the invocation trace of
this dispatch. -/
def _notify (ls : Listeners) (event : String) (data : Payload) :
    Listeners × List Invocation :=
  match lookup ls event with
  | some cbs => (ls, runHandlers data cbs)
  | none => (ls, [])

/-- Options passed to `io(...)` in `connect`: bounded automatic
reconnection with fixed delay. -/
structure SocketOptions where
  reconnection : Bool
  reconnectionDelay : Nat
  reconnectionAttempts : Nat
deriving DecidableEq

def ioOptions : SocketOptions :=
  { reconnection := true, reconnectionDelay := 2000, reconnectionAttempts := 20 }

/-- Transport-level state of the connection manager: the current socket
object (identified by its allocation number; `none` before any connect)
and how many sockets `io(...)` has created so far. -/
structure ManagerState where
  socket : Option Nat
  socketsCreated : Nat
deriving DecidableEq

/-- Embedding of `connect` (src/unnamed/part_000 lines 15-20):
`socket = io(window.location.origin, {...})`. There is no
already-open/opening guard — every call allocates a fresh transport and
overwrites `socket` with it. -/
def connect (s : ManagerState) : ManagerState :=
  { socket := some s.socketsCreated, socketsCreated := s.socketsCreated + 1 }

/-- Transport-level occurrences delivered to the handlers `connect`
registers on the socket: the socket.io `connect` and `disconnect` lifecycle
events, and a server frame of a given kind (the kinds the client listens
for are `connection_ack`, `new_incident`, `alert_update`, `heatmap_update`
and `stats_update`; frames of other kinds have no registered socket handler
and are ignored). -/
inductive TransportEvent where
  | connectEv
  | disconnectEv
  | frame (kind : String) (data : Payload)
deriving DecidableEq

/-- Observable effects of the socket handlers: a `socket.emit` to the
server, a `_notify` dispatch into the multiplexer, and the
`_updateConnectionUI` indicator update. -/
inductive Effect where
  | emitToServer (event : String)
  | dispatchEvent (kind : String) (data : Payload)
  | uiConnection (connected : Bool)
deriving DecidableEq

/-- Effect trace of the socket handlers registered in `connect`
(src/unnamed/part_000 lines 22-58) for one transport occurrence, in program
order. The `connect` handler emits the two subscriptions, dispatches
`connection_change{connected:true}` and sets the indicator live; the
`disconnect` handler dispatches `connection_change{connected:false}` and
sets the indicator to reconnecting; a data frame is forwarded to `_notify`
under its own kind (`connection_ack` only logs). -/
def stepEffects : TransportEvent → List Effect
  | TransportEvent.connectEv =>
      [Effect.emitToServer "subscribe_alerts",
       Effect.emitToServer "subscribe_heatmap",
       Effect.dispatchEvent "connection_change" (Payload.connectionChange true),
       Effect.uiConnection true]
  | TransportEvent.disconnectEv =>
      [Effect.dispatchEvent "connection_change" (Payload.connectionChange false),
       Effect.uiConnection false]
  | TransportEvent.frame kind data =>
      if kind = "new_incident" ∨ kind = "alert_update" ∨
         kind = "heatmap_update" ∨ kind = "stats_update"
      then [Effect.dispatchEvent kind data]
      else []

/-- Discriminator: is this effect the `subscribe_alerts` announcement? -/
def isSubscribeAlerts : Effect → Bool
  | Effect.emitToServer e => e == "subscribe_alerts"
  | _ => false

/-- Discriminator: is this effect the `subscribe_heatmap` announcement? -/
def isSubscribeHeatmap : Effect → Bool
  | Effect.emitToServer e => e == "subscribe_heatmap"
  | _ => false

/-- Discriminator: is this effect the dispatch of
`connection_change{connected:true}`? -/
def isConnectedDispatch : Effect → Bool
  | Effect.dispatchEvent k d =>
      (k == "connection_change") && (d == Payload.connectionChange true)
  | _ => false

end DriveSightSocket

namespace DriveSightMap

open DriveSight

/-- The literal `0.5` default weight in `updateHeatmap`. -/
def defaultIntensity : Rat := 1 / 2

/-- The JS expression `point.intensity || 0.5`: `||` takes the right
operand when the left is falsy, and both `undefined` (a missing field,
here `none`) and the number `0` are falsy, so an intensity of `0` is also
replaced by the default. -/
def intensityOrDefault : Option Rat → Rat
  | none => defaultIntensity
  | some x => if x = 0 then defaultIntensity else x

/-- Embedding of `updateHeatmap` (src/frontend/js/heatmap.js lines 94-104).
`heatmapData = none` models a falsy argument (`null`/`undefined`), on which
the function returns early leaving the layer as is; otherwise every
delivered point is mapped to a `[lat, lng, intensity || 0.5]` triple and
`heatLayer.setLatLngs(points)` replaces the layer's point set wholesale
with exactly those triples. The prior layer content does not flow into the
result. -/
def updateHeatmap (heatmapData : Option (List HeatPoint))
    (heatLayer : List HeatTriple) : List HeatTriple :=
  match heatmapData with
  | none => heatLayer
  | some pts =>
      pts.map (fun point =>
        { lat := point.lat, lng := point.lng,
          weight := intensityOrDefault point.intensity })

end DriveSightMap

namespace DriveSightApp

open DriveSight DriveSightAlerts DriveSightMap

/-- Embedding of `loadHeatmapData` (src/unnamed/part_001 lines 252-261):
on success, `updateHeatmap(data.heatmap || [])` is applied to the response
unconditionally on arrival (there is no request sequence tagging); the
`catch` branch only logs, leaving the layer untouched. -/
def loadHeatmapData (resp : Option (Option (List HeatPoint)))
    (heatLayer : List HeatTriple) : List HeatTriple :=
  match resp with
  | none => heatLayer
  | some hm => updateHeatmap (some (hm.getD [])) heatLayer

/-- The stat readouts written by `updateStatDisplays`
(src/unnamed/part_001): the text content of the four counter elements
(`none` = never written yet). -/
structure StatsDisplay where
  dashActiveAlerts : Option Nat
  dashCamerasOnline : Option Nat
  dashIncidentsToday : Option Nat
  mockupAlerts : Option Nat
deriving DecidableEq

/-- Embedding of `updateStatDisplays` (src/unnamed/part_001): each readout
is overwritten when the corresponding payload field is defined
(`value !== undefined`) and kept otherwise. The target DOM elements are
assumed present. -/
def updateStatDisplays (data : StatsPayload) (s : StatsDisplay) : StatsDisplay :=
  { dashActiveAlerts :=
      match data.active_alerts with
      | some v => some v
      | none => s.dashActiveAlerts,
    dashCamerasOnline :=
      match data.cameras_active with
      | some v => some v
      | none => s.dashCamerasOnline,
    dashIncidentsToday :=
      match data.incidents_today with
      | some v => some v
      | none => s.dashIncidentsToday,
    mockupAlerts :=
      match data.incidents_today with
      | some v => some v
      | none => s.mockupAlerts }

/-- The per-domain application view state reconciled by the dashboard: the
alert panel's `alerts` array, the heat layer's point set, and the stat
readouts. (The map marker layer and chart objects are rendering
collaborators outside the reconciled views.) -/
structure AppState where
  alerts : List Alert
  heatLayer : List HeatTriple
  stats : StatsDisplay
deriving DecidableEq

/-- Combined effect on the view state of dispatching one event through
`_notify` to the handlers the dashboard registers via `DriveSightSocket.on`
(in `DriveSightAlerts.init` and `initDashboard` of src/unnamed/part_001):
`new_incident` prepends `data.alert` (when present) to the alert panel;
`heatmap_update` replaces the heat layer with `data.heatmap` (when
present); `stats_update` overwrites the stat readouts. `alert_update` only
starts a re-pull (the state changes when that pull's response arrives,
modelled by `fetchAlerts`), and no handler is registered for
`connection_change`, so neither changes the views at dispatch time. -/
def appDispatch (s : AppState) (event : String) (data : Payload) : AppState :=
  if event = "new_incident" then
    match data with
    | Payload.newIncident p => { s with alerts := alertsOnNewIncident p s.alerts }
    | _ => s
  else if event = "heatmap_update" then
    match data with
    | Payload.heatmapUpdate (some pts) =>
        { s with heatLayer := updateHeatmap (some pts) s.heatLayer }
    | _ => s
  else if event = "stats_update" then
    match data with
    | Payload.statsUpdate d => { s with stats := updateStatDisplays d s.stats }
    | _ => s
  else s

/-- View-state transition for one transport occurrence: the socket handlers
of src/unnamed/part_000 dispatch into the registry, and `appDispatch` is
the resulting view update. -/
def stepState (s : AppState) : DriveSightSocket.TransportEvent → AppState
  | DriveSightSocket.TransportEvent.connectEv =>
      appDispatch s "connection_change" (Payload.connectionChange true)
  | DriveSightSocket.TransportEvent.disconnectEv =>
      appDispatch s "connection_change" (Payload.connectionChange false)
  | DriveSightSocket.TransportEvent.frame kind data =>
      if kind = "new_incident" ∨ kind = "alert_update" ∨
         kind = "heatmap_update" ∨ kind = "stats_update"
      then appDispatch s kind data
      else s

end DriveSightApp

section AlertTheorems

open DriveSight DriveSightAlerts

/-- Unfolding of `_prependAlert`: prepend then cap at 30 is exactly
`take 30` of the prepended list. -/
theorem prependAlert_eq_take (a : Alert) (v : List Alert) :
    _prependAlert a v = a :: v.take 29 := by
  unfold _prependAlert
  by_cases h : (a :: v).length > 30
  · simp only [if_pos h, List.take_succ_cons]
  · simp only [if_neg h]
    have hv : v.length ≤ 29 := by
      simp only [List.length_cons, gt_iff_lt, not_lt] at h
      omega
    rw [List.take_of_length_le hv]

/-- C2: for every reachable alert view `v` and every push sequence ending in
a push of `a`, the view observed after that push has length at most 30 and
equals the pushed alert followed by (the 29-cap of) the alerts already
present — i.e. the view stays capacity-bounded and newest-first at every
observation point of every push sequence. -/
theorem C2_alertView_bounded_newest_first (v : List Alert) (ps : List Alert)
    (a : Alert) :
    (applyPushes v (ps ++ [a])).length ≤ 30 ∧
    applyPushes v (ps ++ [a]) = a :: (applyPushes v ps).take 29 := by
  have hstep : applyPushes v (ps ++ [a]) = _prependAlert a (applyPushes v ps) := by
    unfold applyPushes
    rw [List.foldl_append]
    rfl
  rw [hstep, prependAlert_eq_take]
  refine ⟨?_, rfl⟩
  simp only [List.length_cons, List.length_take]
  omega

/-- C3: a push alert delta prepends the new alert and truncates to the 30
most recent; concretely, after a pull snapshot `[a1]` a push of `a2` yields
`[a2, a1]`, and 31 sequential pushes starting from the empty view leave a
view of length 30 holding exactly events #31 down to #2 (event #1, the
oldest, dropped). -/
theorem C3_prepend_truncate_scenarios :
    (∀ (a : Alert) (v : List Alert),
        alertsOnNewIncident { alert := some a } v = (a :: v).take 30) ∧
    alertsOnNewIncident { alert := some (mkA 2) }
        (fetchAlerts (some (some [mkA 1])) []).1 = [mkA 2, mkA 1] ∧
    (applyPushes [] ((List.range 31).map (fun i => mkA (i + 1)))).length = 30 ∧
    applyPushes [] ((List.range 31).map (fun i => mkA (i + 1))) =
      (List.range 30).map (fun i => mkA (31 - i)) := by
  refine ⟨?_, by decide, by decide, by decide⟩
  intro a v
  show _prependAlert a v = (a :: v).take 30
  rw [prependAlert_eq_take, List.take_succ_cons]

/-- C1 counterexample: the code carries no request sequence numbers — each
pull response is applied unconditionally on arrival. Issue pull P1 then
pull P2 for the alerts domain; P2's response `[mkA 2]` arrives first, then
P1's stale response `[mkA 1]` arrives. The final view is `[mkA 1]`: the
later-arriving response of the earlier-issued request P1 overwrites P2's
result instead of being discarded, refuting the claim. -/
theorem C1_counterexample :
    (fetchAlerts (some (some [mkA 1]))
        (fetchAlerts (some (some [mkA 2])) []).1).1 = [mkA 1] ∧
    [mkA 1] ≠ [mkA 2] := by decide

/-- C1 amended: there is no request tagging; a successful pull response
unconditionally replaces the alerts view on arrival, so the view reflects
whichever response arrived last (last response wins, not last request
wins). -/
theorem C1_last_response_wins (d1 d2 v : List Alert) :
    (fetchAlerts (some (some d1)) v).1 = d1 ∧
    (fetchAlerts (some (some d1)) (fetchAlerts (some (some d2)) v).1).1 = d1 := by
  exact ⟨rfl, rfl⟩

/-- C8: a failed alerts pull (the `catch` branch of `fetchAlerts`) leaves
the stored alert list exactly at its previous value and renders only the
transient failure indicator; `fetchAlerts` is total, so the error never
propagates to the caller. -/
theorem C8_pull_failure_keeps_state (v : List Alert) :
    fetchAlerts none v = (v, RenderAction.renderError) := rfl

end AlertTheorems

section MuxTheorems

open DriveSight DriveSightSocket

/-- The `forEach` with per-handler `try`/`catch` records one invocation per
registered callback, in list order, whether or not each one throws. -/
theorem runHandlers_eq_map (data : Payload) (cbs : List Handler) :
    runHandlers data cbs =
      cbs.map (fun cb => { handler := cb.id, errored := cb.throws data }) := by
  induction cbs with
  | nil => rfl
  | cons cb rest ih => simp [runHandlers, ih]

/-- C4: dispatching an event invokes every handler registered for that
kind, in registration order, recording for each whether its exception was
caught and logged — the list of invocations is exactly the registered list,
independent of which handlers throw. The registry is left unchanged, so a
subsequent dispatch behaves exactly as it would have without the earlier
(possibly failing) dispatch; `_notify` is total, so no handler failure
escapes the dispatch loop. -/
theorem C4_handler_isolation (ls : Listeners) (event : String) (data : Payload)
    (event2 : String) (data2 : Payload) :
    (_notify ls event data).1 = ls ∧
    (_notify ls event data).2 =
      ((lookup ls event).getD []).map
        (fun cb => { handler := cb.id, errored := cb.throws data }) ∧
    _notify (_notify ls event data).1 event2 data2 = _notify ls event2 data2 := by
  have h1 : (_notify ls event data).1 = ls := by
    unfold _notify
    cases lookup ls event <;> rfl
  refine ⟨h1, ?_, by rw [h1]⟩
  unfold _notify
  cases hcb : lookup ls event with
  | none => simp
  | some cbs => simp [runHandlers_eq_map]

/-- C10: registering a handler for a kind outside the five known event
kinds is a silent no-op (the registry is unchanged, so the handler is never
stored and never invoked), and `_notify` for such a kind performs no
invocation and returns normally. -/
theorem C10_unknown_kind_noop (ls : Listeners) (event : String) (cb : Handler)
    (data : Payload) (h : lookup ls event = none) :
    onEvent ls event cb = ls ∧ _notify ls event data = (ls, []) := by
  constructor
  · unfold onEvent
    unfold lookup at h
    split_ifs at h ⊢
    simp_all
  · unfold _notify
    rw [h]

/-- Witness for `C10_unknown_kind_noop` at the empty registry, the unknown
kind `"camera_update"` and a throwing handler. -/
theorem C10_witness :
    onEvent ⟨[], [], [], [], []⟩ "camera_update" ⟨0, fun _ => true⟩ =
      ⟨[], [], [], [], []⟩ ∧
    _notify ⟨[], [], [], [], []⟩ "camera_update" Payload.emptyPayload =
      (⟨[], [], [], [], []⟩, []) :=
  C10_unknown_kind_noop ⟨[], [], [], [], []⟩ "camera_update"
    ⟨0, fun _ => true⟩ Payload.emptyPayload rfl

end MuxTheorems

section ConnectionTheorems

open DriveSight DriveSightSocket DriveSightApp

/-- C5: the `connect` lifecycle handler — run on the initial connect and on
every reconnect — announces `subscribe_alerts` and `subscribe_heatmap` and
dispatches `connection_change{connected:true}`, each exactly once; no other
transport occurrence produces any of these three effects, so across any
trace they happen exactly once per connect event. -/
theorem C5_subscriptions_on_connect :
    stepEffects TransportEvent.connectEv =
      [Effect.emitToServer "subscribe_alerts",
       Effect.emitToServer "subscribe_heatmap",
       Effect.dispatchEvent "connection_change" (Payload.connectionChange true),
       Effect.uiConnection true] ∧
    ∀ ev : TransportEvent,
      (stepEffects ev).countP isSubscribeAlerts =
        (if ev = TransportEvent.connectEv then 1 else 0) ∧
      (stepEffects ev).countP isSubscribeHeatmap =
        (if ev = TransportEvent.connectEv then 1 else 0) ∧
      (stepEffects ev).countP isConnectedDispatch =
        (if ev = TransportEvent.connectEv then 1 else 0) := by
  refine ⟨rfl, ?_⟩
  intro ev
  cases ev with
  | connectEv => exact ⟨by decide, by decide, by decide⟩
  | disconnectEv => exact ⟨by decide, by decide, by decide⟩
  | frame k d =>
    have hne : ¬(TransportEvent.frame k d = TransportEvent.connectEv) := by simp
    simp only [if_neg hne]
    by_cases hk : k = "new_incident" ∨ k = "alert_update" ∨
        k = "heatmap_update" ∨ k = "stats_update"
    · rcases hk with h | h | h | h <;> subst h <;> exact ⟨rfl, rfl, rfl⟩
    · have hnil : stepEffects (TransportEvent.frame k d) = [] := by
        simp only [stepEffects, if_neg hk]
      rw [hnil]
      exact ⟨rfl, rfl, rfl⟩

/-- C6: handling a transport disconnect dispatches
`connection_change{connected:false}` and updates the connection indicator,
and leaves the whole application view state — alert list, heat-map layer
and stat readouts — exactly as it was (no registered handler reacts to
`connection_change`, so nothing is cleared or reset). -/
theorem C6_disconnect_frame (s : AppState) :
    stepState s TransportEvent.disconnectEv = s ∧
    stepEffects TransportEvent.disconnectEv =
      [Effect.dispatchEvent "connection_change" (Payload.connectionChange false),
       Effect.uiConnection false] :=
  ⟨rfl, rfl⟩

/-- C7 counterexample: starting from the pristine state (no socket yet),
calling `connect()` twice is observably different from calling it once —
the second call allocates and installs a second transport instead of
leaving the open one untouched, refuting idempotence at this concrete
input. -/
theorem C7_counterexample :
    connect (connect { socket := none, socketsCreated := 0 }) ≠
      connect { socket := none, socketsCreated := 0 } := by decide

/-- C7 amended: `connect()` is not idempotent and has no open/opening
guard: every call unconditionally allocates a fresh transport via
`io(...)` and overwrites `socket` with it, so each call changes the
manager state and a repeated call changes the underlying transport again. -/
theorem C7_connect_not_idempotent (s : ManagerState) :
    (connect s).socket = some s.socketsCreated ∧
    (connect s).socketsCreated = s.socketsCreated + 1 ∧
    connect s ≠ s ∧
    connect (connect s) ≠ connect s := by
  refine ⟨rfl, rfl, ?_, ?_⟩
  · intro h
    have hc := congrArg ManagerState.socketsCreated h
    simp only [connect] at hc
    omega
  · intro h
    have hc := congrArg ManagerState.socketsCreated h
    simp only [connect] at hc
    omega

end ConnectionTheorems

section HeatmapTheorems

open DriveSight DriveSightMap

/-- C9 counterexample: a delivered point whose `intensity` field is present
and equal to `0` is not preserved — `point.intensity || 0.5` treats the
number `0` as falsy, so the update substitutes the default weight `0.5`
for it, refuting the claim that only missing intensities are defaulted. -/
theorem C9_counterexample :
    updateHeatmap (some [⟨1, 2, some 0⟩]) [] = [⟨1, 2, 1 / 2⟩] ∧
    (1 : Rat) / 2 ≠ 0 := by
  constructor
  · simp [updateHeatmap, intensityOrDefault, defaultIntensity]
  · norm_num

/-- C9 amended: every heat-map update replaces the layer wholesale with
exactly the delivered point set (no prior point survives — the result is a
function of the delivered points only), and normalization substitutes the
default weight `0.5` for any falsy intensity, i.e. both for a missing
`intensity` field and for an intensity of `0`; every nonzero provided
intensity is preserved unchanged. -/
theorem C9_heatmap_replace_default (pts : List HeatPoint)
    (layer : List HeatTriple) (x : Rat) (hx : x ≠ 0) :
    updateHeatmap (some pts) layer =
      pts.map (fun p => ⟨p.lat, p.lng, intensityOrDefault p.intensity⟩) ∧
    intensityOrDefault none = defaultIntensity ∧
    intensityOrDefault (some 0) = defaultIntensity ∧
    intensityOrDefault (some x) = x := by
  refine ⟨rfl, rfl, ?_, ?_⟩
  · simp [intensityOrDefault]
  · simp [intensityOrDefault, hx]

/-- Witness for `C9_heatmap_replace_default` at the empty snapshot and the
provided intensity `3/4`. -/
theorem C9_witness :
    updateHeatmap (some []) [] = [] ∧
    intensityOrDefault none = defaultIntensity ∧
    intensityOrDefault (some 0) = defaultIntensity ∧
    intensityOrDefault (some (3 / 4)) = 3 / 4 :=
  C9_heatmap_replace_default [] [] (3 / 4) (by norm_num)

end HeatmapTheorems
